import Mathlib

/-!
# Orchestrator worker: task lifecycle and dispatch

A shallow embedding of `worker/worker.go` (Worker.AddTask, Worker.RunTask,
Worker.StartTask, Worker.StopTask) and `task/docker.go` (NewConfig, NewDocker,
Docker.Run, Docker.Stop).

Modelling conventions:
* the Worker is passed explicitly; every operation returns the Worker as it leaves it;
* the container runtime client is an oracle `Runtime` giving the outcome of each
  client call; every operation also returns the list of client calls it made,
  in order, together with markers for the entry of the two dispatch handlers;
* a Go `panic` is an explicit completion kind, propagated by the callers (none of
  them recovers);
* `time.Now().UTC()` is the parameter `now`; the zero instant is `0`;
* logging and copying of streams to stdout/stderr are not modelled.
-/

namespace Orchestrator

/-- A `uuid.UUID`, used only as a map key. -/
abbrev UUID := Nat

/-- A `time.Time`; `0` is the zero instant (`IsZero`). -/
abbrev Time := Nat

/-- Modelled from the spec: the type `task.State`, whose declaration is not among the
sources; the five lifecycle states of section 3 and 4.1. -/
inductive State where
  | Pending
  | Scheduled
  | Running
  | Completed
  | Failed
deriving DecidableEq, Repr

/-- Modelled from the spec: the struct `task.Task`, whose declaration is not among the
sources; the fields of section 3, with the names the sources use for them. -/
structure Task where
  ID : UUID
  Name : String := ""
  State : Orchestrator.State := .Pending
  Image : String := ""
  Memory : Int := 0
  Disk : Int := 0
  RestartPolicy : String := ""
  Env : List String := []
  ContainerId : String := ""
  StartTime : Time := 0
  FinishTime : Time := 0
deriving DecidableEq, Repr

/-- Modelled from the spec: the function `task.ValidStateTransition`, whose definition is
not among the sources; the legal-transition table of section 4.1. -/
def ValidStateTransition : State → State → Bool
  | .Pending, .Scheduled => true
  | .Scheduled, .Scheduled => true
  | .Scheduled, .Running => true
  | .Scheduled, .Failed => true
  | .Running, .Running => true
  | .Running, .Completed => true
  | .Running, .Failed => true
  | _, _ => false

/-- A Go `error` value: one returned by a runtime client call, one made by
`errors.New`, or one made by `fmt.Errorf` from a format and its arguments. -/
inductive GoError where
  | runtime (cause : String)
  | errorsNew (text : String)
  | errorf (format : String) (args : List State)
deriving DecidableEq, Repr

/-- The struct `task.Config`. -/
structure Config where
  Name : String := ""
  AttachStdin : Bool := false
  AttachStdout : Bool := false
  AttachStderr : Bool := false
  Cmd : List String := []
  Image : String := ""
  Memory : Int := 0
  Disk : Int := 0
  Env : List String := []
  RestartPolicy : String := ""
deriving DecidableEq, Repr

/-- The struct `task.DockerResult`; `Error = none` is Go's `nil`. -/
structure DockerResult where
  Error : Option GoError := none
  Action : String := ""
  ContainerId : String := ""
  Result : String := ""
deriving DecidableEq, Repr

/-- The struct `task.Docker` without its client handle, which is the oracle `Runtime`. -/
structure Docker where
  Config : Config
  ContainerId : String := ""
deriving DecidableEq, Repr

/-- The `container.Config` that Docker.Run builds. -/
structure ContainerConfig where
  Image : String
  Env : List String
deriving DecidableEq, Repr

/-- The `container.HostConfig` that Docker.Run builds. -/
structure HostConfig where
  RestartPolicy : String
  Memory : Int
  PublishAllPorts : Bool
deriving DecidableEq, Repr

/-- The outcome of every call on the runtime client: `none` is a nil error, `some cause`
the error `GoError.runtime cause`. ContainerCreate gives the response's ID together
with its error. -/
structure Runtime where
  ImagePull : String → Option String
  ContainerCreate : ContainerConfig → HostConfig → String → String × Option String
  ContainerStart : String → Option String
  ContainerLogs : String → Option String
  ContainerStop : String → Option String
  ContainerRemove : String → Option String

/-- What an operation did, in order: the runtime client calls it made, and the entry of
the two dispatch handlers with the snapshot they were given. -/
inductive Call where
  | StartTask (t : Task)
  | StopTask (t : Task)
  | ImagePull (image : String)
  | ContainerCreate (cc : ContainerConfig) (hc : HostConfig) (name : String)
  | ContainerStart (id : String)
  | ContainerLogs (id : String)
  | ContainerStop (id : String)
  | ContainerRemove (id : String)
deriving DecidableEq, Repr

/-- `NewDocker`. -/
def NewDocker (c : Config) : Docker :=
  { Config := c }

/-- `NewConfig`. -/
def NewConfig (t : Task) : Config :=
  { Name := t.Name
    Image := t.Image
    Memory := t.Memory
    Disk := t.Disk
    RestartPolicy := t.RestartPolicy }

/-- `Docker.Run`: the adapter as it is left, the Result, and the client calls made.
The error of ContainerCreate is overwritten by that of ContainerStart without being
looked at. -/
def Docker.Run (rt : Runtime) (d : Docker) : Docker × DockerResult × List Call :=
  match rt.ImagePull d.Config.Image with
  | some err => (d, { Error := some (.runtime err) }, [Call.ImagePull d.Config.Image])
  | none =>
    let cc : ContainerConfig := { Image := d.Config.Image, Env := d.Config.Env }
    let hc : HostConfig :=
      { RestartPolicy := d.Config.RestartPolicy, Memory := d.Config.Memory,
        PublishAllPorts := true }
    let resp := rt.ContainerCreate cc hc d.Config.Name
    let calls₁ := [Call.ImagePull d.Config.Image, Call.ContainerCreate cc hc d.Config.Name,
      Call.ContainerStart resp.1]
    match rt.ContainerStart resp.1 with
    | some err => (d, { Error := some (.runtime err) }, calls₁)
    | none =>
      let d₁ : Docker := { d with ContainerId := resp.1 }
      let calls₂ := calls₁ ++ [Call.ContainerLogs resp.1]
      match rt.ContainerLogs resp.1 with
      | some err => (d₁, { Error := some (.runtime err) }, calls₂)
      | none =>
        (d₁, { ContainerId := resp.1, Action := "start", Result := "success" }, calls₂)

/-- `Docker.Stop`: `Except.error` is a panic with that value. -/
def Docker.Stop (rt : Runtime) (id : String) : Except GoError DockerResult × List Call :=
  match rt.ContainerStop id with
  | some err => (.error (.runtime err), [Call.ContainerStop id])
  | none =>
    match rt.ContainerRemove id with
    | some err => (.error (.runtime err), [Call.ContainerStop id, Call.ContainerRemove id])
    | none =>
      (.ok { ContainerId := id, Action := "stop", Result := "success" },
        [Call.ContainerStop id, Call.ContainerRemove id])

/-- The task store `map[uuid.UUID]*task.Task`. -/
abbrev Db := UUID → Option Task

/-- The map assignment `db[k] = &t`. -/
def Db.set (db : Db) (k : UUID) (t : Task) : Db :=
  fun i => if i = k then some t else db i

/-- The struct `worker.Worker`; the queue is first-in first-out, head first. -/
structure Worker where
  Name : String := ""
  Queue : List Task := []
  Db : Db := fun _ => none
  TaskCount : Int := 0

/-- How a call ended: it returned a Result, or it panicked. -/
inductive Completion where
  | returned (result : DockerResult)
  | panicked (err : GoError)
deriving DecidableEq, Repr

/-- A call of a Worker operation: how it ended, the Worker as it is left, and the calls
made. -/
structure Outcome where
  completion : Completion
  worker : Worker
  calls : List Call

/-- `Worker.AddTask`. -/
def Worker.AddTask (w : Worker) (t : Task) : Worker :=
  { w with Queue := w.Queue ++ [t] }

/-- `Worker.StartTask`. -/
def Worker.StartTask (rt : Runtime) (now : Time) (w : Worker) (t : Task) : Outcome :=
  let t₁ : Task := { t with StartTime := now }
  let config := NewConfig t₁
  let d := NewDocker config
  let (_, result, calls) := d.Run rt
  if result.Error ≠ none then
    let t₂ : Task := { t₁ with State := .Failed }
    { completion := .returned result
      worker := { w with Db := w.Db.set t₂.ID t₂ }
      calls := Call.StartTask t :: calls }
  else
    let t₂ : Task := { t₁ with ContainerId := result.ContainerId, State := .Running }
    { completion := .returned result
      worker := { w with Db := w.Db.set t₂.ID t₂ }
      calls := Call.StartTask t :: calls }

/-- `Worker.StopTask`: Stop is given the container id of the adapter just made. -/
def Worker.StopTask (rt : Runtime) (now : Time) (w : Worker) (t : Task) : Outcome :=
  let config := NewConfig t
  let d := NewDocker config
  match Docker.Stop rt d.ContainerId with
  | (.error err, calls) =>
    { completion := .panicked err, worker := w, calls := Call.StopTask t :: calls }
  | (.ok result, calls) =>
    let t₁ : Task := { t with FinishTime := now, State := .Completed }
    { completion := .returned result
      worker := { w with Db := w.Db.set t₁.ID t₁ }
      calls := Call.StopTask t :: calls }

/-- `Worker.RunTask`, with the validator it calls as the parameter `valid`. -/
def Worker.RunTask (valid : State → State → Bool) (rt : Runtime) (now : Time)
    (w : Worker) : Outcome :=
  match w.Queue with
  | [] => { completion := .returned { Error := none }, worker := w, calls := [] }
  | taskQueued :: rest =>
    let w₁ : Worker := { w with Queue := rest }
    let found : Task × Worker :=
      match w₁.Db taskQueued.ID with
      | some p => (p, w₁)
      | none => (taskQueued, { w₁ with Db := w₁.Db.set taskQueued.ID taskQueued })
    let taskPersisted := found.1
    let w₂ := found.2
    if valid taskPersisted.State taskQueued.State then
      match taskQueued.State with
      | .Scheduled => w₂.StartTask rt now taskQueued
      | .Completed => w₂.StopTask rt now taskQueued
      | _ =>
        { completion := .returned { Error := some (.errorsNew "We should not get here") }
          worker := w₂, calls := [] }
    else
      { completion := .returned
          { Error := some (.errorf "Invalid transition from %v to %v"
              [taskPersisted.State, taskQueued.State]) }
        worker := w₂, calls := [] }

/-- Whether a call marks the entry of a dispatch handler. -/
def Call.isDispatch : Call → Bool
  | .StartTask _ => true
  | .StopTask _ => true
  | _ => false

/-- Whether a call is a runtime client call. -/
def Call.isRuntime (c : Call) : Bool :=
  !c.isDispatch

/-- Whether a call marks the entry of StartTask for the task `id`. -/
def Call.startsTask (id : UUID) : Call → Bool
  | .StartTask t => t.ID == id
  | _ => false

/-- How many times StartTask was entered for the task `id`. -/
def startCount (id : UUID) (calls : List Call) : Nat :=
  calls.countP (Call.startsTask id)

/-- Whether a call ended with the error RunTask makes for a rejected transition. -/
def Completion.isInvalidTransition : Completion → Bool
  | .returned r =>
    match r.Error with
    | some (.errorf f _) => f == "Invalid transition from %v to %v"
    | _ => false
  | .panicked _ => false

/-- A caller's call on the Worker: AddTask with a snapshot, or RunTask during which the
runtime behaves as `rt` and the clock reads `now`. -/
inductive Cmd where
  | AddTask (t : Task)
  | RunTask (rt : Runtime) (now : Time)

/-- A Worker with the calls made on its behalf so far. -/
structure Sys where
  worker : Worker
  calls : List Call

/-- One call on the Worker. After a panic the Worker is taken as the panic left it. -/
def step (valid : State → State → Bool) (s : Sys) : Cmd → Sys
  | .AddTask t => { s with worker := s.worker.AddTask t }
  | .RunTask rt now =>
    let o := s.worker.RunTask valid rt now
    { worker := o.worker, calls := s.calls ++ o.calls }

/-- A finite sequence of calls on the Worker. -/
def exec (valid : State → State → Bool) (s : Sys) (cmds : List Cmd) : Sys :=
  cmds.foldl (step valid) s

/-- The Worker that main builds: empty queue, empty store. -/
def newWorker : Worker :=
  { Queue := [], Db := fun _ => none }

/-- The Worker as RunTask has it when it calls the validator on the dequeued snapshot `t`:
the head is off the queue, and `t` is in the store when its ID had no record. -/
def Worker.lookedUp (w : Worker) (t : Task) (rest : List Task) : Worker :=
  match w.Db t.ID with
  | some _ => { w with Queue := rest }
  | none => { w with Queue := rest, Db := w.Db.set t.ID t }

/-- The record RunTask takes as the current one for the dequeued snapshot `t`: the stored
one, or `t` itself when its ID had no record. -/
def Worker.persisted (w : Worker) (t : Task) : Task :=
  match w.Db t.ID with
  | some p => p
  | none => t

/-- The invariant of a Worker with its calls: StartTask was entered at most once for each
task ID, and the record of a task it was entered for is Running, Completed or Failed. -/
def StartedOnce (s : Sys) : Prop :=
  ∀ id, startCount id s.calls = 0 ∨
    (startCount id s.calls = 1 ∧
      ∃ r, s.worker.Db id = some r ∧
        (r.State = .Running ∨ r.State = .Completed ∨ r.State = .Failed))

/-! ## Concrete inputs -/

/-- A runtime on which every call succeeds; created containers get the ID "c2". -/
def rtOk : Runtime :=
  { ImagePull := fun _ => none
    ContainerCreate := fun _ _ _ => ("c2", none)
    ContainerStart := fun _ => none
    ContainerLogs := fun _ => none
    ContainerStop := fun _ => none
    ContainerRemove := fun _ => none }

/-- A runtime that treats the empty container id as the Docker client does: starting,
reading the logs of, stopping or removing the container "" is an error. Every other call
succeeds, and created containers get the ID "c2". -/
def rtDocker : Runtime :=
  { ImagePull := fun _ => none
    ContainerCreate := fun _ _ _ => ("c2", none)
    ContainerStart := fun id => if id = "" then some "empty container id" else none
    ContainerLogs := fun id => if id = "" then some "empty container id" else none
    ContainerStop := fun id => if id = "" then some "empty container id" else none
    ContainerRemove := fun id => if id = "" then some "empty container id" else none }

/-- A runtime on which the image pull fails. -/
def rtPullFails : Runtime :=
  { rtOk with ImagePull := fun _ => some "pull failed" }

/-- A runtime on which ContainerCreate fails, with the zero response, and every other
call succeeds. -/
def rtCreateFails : Runtime :=
  { rtOk with ContainerCreate := fun _ _ _ => ("", some "create failed") }

/-- A runtime on which ContainerStop fails. -/
def rtStopFails : Runtime :=
  { rtOk with ContainerStop := fun _ => some "stop failed" }

/-- The snapshot main submits first, with ID 1. -/
def taskScheduled : Task :=
  { ID := 1, Name := "test-container-1", State := .Scheduled, Image := "strm/helloworld-http" }

/-- A stop request for task 1 that carries no container id. -/
def taskCompleted : Task :=
  { taskScheduled with State := .Completed }

/-- A store record of task 1, running in container "c1". -/
def recordRunning : Task :=
  { taskScheduled with State := .Running, ContainerId := "c1", StartTime := 5 }

/-- A store record of task 1, still Pending. -/
def recordPending : Task :=
  { taskScheduled with State := .Pending }

/-- A Worker whose store holds `r` under its ID and whose queue holds `q`. -/
def workerWith (r : Task) (q : List Task) : Worker :=
  { Queue := q, Db := Db.set (fun _ => none) r.ID r }

/-! ## The store -/

/-- Reading the key just written gives the record written. -/
theorem Db.set_self (db : Db) (k : UUID) (t : Task) : (db.set k t) k = some t := by
  simp [Db.set]

/-- Reading another key than the one written gives what the store held. -/
theorem Db.set_other (db : Db) (k i : UUID) (t : Task) (h : i ≠ k) :
    (db.set k t) i = db i := by
  simp [Db.set, h]

/-! ## The adapter -/

/-- The calls Docker.Run makes are runtime client calls only. -/
theorem Run_calls_runtime (rt : Runtime) (d : Docker) :
    ∀ c ∈ (d.Run rt).2.2, c.isRuntime = true := by
  simp only [Docker.Run]
  split
  · simp [Call.isRuntime, Call.isDispatch]
  · split
    · simp [Call.isRuntime, Call.isDispatch]
    · split <;> simp [Call.isRuntime, Call.isDispatch]

/-- The calls Docker.Stop makes are runtime client calls only. -/
theorem Stop_calls_runtime (rt : Runtime) (id : String) :
    ∀ c ∈ (Docker.Stop rt id).2, c.isRuntime = true := by
  unfold Docker.Stop
  split
  · simp [Call.isRuntime, Call.isDispatch]
  · split <;> simp [Call.isRuntime, Call.isDispatch]

/-- An error in the Result of Docker.Run is the error of a runtime client call. -/
theorem Run_error_runtime (rt : Runtime) (d : Docker) (e : GoError)
    (h : (d.Run rt).2.1.Error = some e) : ∃ cause, e = .runtime cause := by
  simp only [Docker.Run] at h
  split at h
  · exact ⟨_, by simpa using h.symm⟩
  · split at h
    · exact ⟨_, by simpa using h.symm⟩
    · split at h
      · exact ⟨_, by simpa using h.symm⟩
      · simp at h

/-- A failed image pull, container start or log attach is returned by Docker.Run as the
Error of its Result. -/
theorem Run_checked_errors (rt : Runtime) (d : Docker) :
    (∀ e, rt.ImagePull d.Config.Image = some e →
      (d.Run rt).2.1 = { Error := some (.runtime e) }) ∧
    (∀ e, rt.ImagePull d.Config.Image = none →
      rt.ContainerStart (rt.ContainerCreate ⟨d.Config.Image, d.Config.Env⟩
        ⟨d.Config.RestartPolicy, d.Config.Memory, true⟩ d.Config.Name).1 = some e →
      (d.Run rt).2.1 = { Error := some (.runtime e) }) ∧
    (∀ e, rt.ImagePull d.Config.Image = none →
      rt.ContainerStart (rt.ContainerCreate ⟨d.Config.Image, d.Config.Env⟩
        ⟨d.Config.RestartPolicy, d.Config.Memory, true⟩ d.Config.Name).1 = none →
      rt.ContainerLogs (rt.ContainerCreate ⟨d.Config.Image, d.Config.Env⟩
        ⟨d.Config.RestartPolicy, d.Config.Memory, true⟩ d.Config.Name).1 = some e →
      (d.Run rt).2.1 = { Error := some (.runtime e) }) := by
  refine ⟨?_, ?_, ?_⟩
  · intro e h
    simp [Docker.Run, h]
  · intro e h₁ h₂
    simp [Docker.Run, h₁, h₂]
  · intro e h₁ h₂ h₃
    simp [Docker.Run, h₁, h₂, h₃]

/-- C7 (the code at the failing input): ContainerCreate fails with the error
"create failed" and the zero response, the three other calls succeed; Docker.Run
returns the success Result of a start, with a nil Error and an empty ContainerId, so
the create error is not returned. -/
theorem Run_create_error_not_returned :
    (rtCreateFails.ContainerCreate ⟨taskScheduled.Image, []⟩
        ⟨taskScheduled.RestartPolicy, taskScheduled.Memory, true⟩ taskScheduled.Name).2
      = some "create failed" ∧
    ((NewDocker (NewConfig taskScheduled)).Run rtCreateFails).2.1
      = { Error := none, Action := "start", ContainerId := "", Result := "success" } := by
  constructor <;> rfl

/-- When ContainerCreate fails with the zero response and the client refuses to start the
container with the empty id, the Error Docker.Run returns is the one of ContainerStart;
the one of ContainerCreate is not returned. -/
theorem Run_create_error_replaced (rt : Runtime) (d : Docker) (e e₁ : String)
    (hpull : rt.ImagePull d.Config.Image = none)
    (hcreate : rt.ContainerCreate ⟨d.Config.Image, d.Config.Env⟩
      ⟨d.Config.RestartPolicy, d.Config.Memory, true⟩ d.Config.Name = ("", some e))
    (hstart : rt.ContainerStart "" = some e₁) :
    (d.Run rt).2.1 = { Error := some (.runtime e₁) } := by
  simp [Docker.Run, hpull, hcreate, hstart]

/-! ## The dispatch handlers -/

/-- What StartTask does in terms of the Result of Docker.Run: the record written is the
snapshot stamped with the start time, Failed when the Result has an error, Running with
the Result's ContainerId otherwise; nothing else in the store changes. -/
theorem StartTask_spec (rt : Runtime) (now : Time) (w : Worker) (t : Task) :
    (w.StartTask rt now t).completion = .returned ((NewDocker (NewConfig t)).Run rt).2.1 ∧
    (w.StartTask rt now t).calls = Call.StartTask t :: ((NewDocker (NewConfig t)).Run rt).2.2 ∧
    (w.StartTask rt now t).worker.Queue = w.Queue ∧
    (w.StartTask rt now t).worker.Db = w.Db.set t.ID
      (if ((NewDocker (NewConfig t)).Run rt).2.1.Error ≠ none then
        { t with StartTime := now, State := .Failed }
      else
        { t with StartTime := now, State := .Running,
                 ContainerId := ((NewDocker (NewConfig t)).Run rt).2.1.ContainerId }) := by
  have hc : NewConfig { t with StartTime := now } = NewConfig t := rfl
  unfold Worker.StartTask
  simp only [hc]
  by_cases h : ((NewDocker (NewConfig t)).Run rt).2.1.Error ≠ none
  · simp [h]
  · simp [h]

/-- C5: when Docker.Run returns a Result with a non-nil Error, StartTask returns exactly
that Result and writes, under the task's ID, the snapshot stamped with the start time
and with State = Failed; every other field of the record, ContainerId included, is the
snapshot's, and the record of every other ID is unchanged. -/
theorem StartTask_run_failure (rt : Runtime) (now : Time) (w : Worker) (t : Task)
    (e : GoError) (h : ((NewDocker (NewConfig t)).Run rt).2.1.Error = some e) :
    (w.StartTask rt now t).completion = .returned ((NewDocker (NewConfig t)).Run rt).2.1 ∧
    (w.StartTask rt now t).worker.Db t.ID
      = some { t with StartTime := now, State := .Failed } ∧
    (∃ r, (w.StartTask rt now t).worker.Db t.ID = some r ∧ r.State = .Failed ∧
      r.ContainerId = t.ContainerId) ∧
    (∀ i, i ≠ t.ID → (w.StartTask rt now t).worker.Db i = w.Db i) := by
  obtain ⟨h₁, -, -, h₄⟩ := StartTask_spec rt now w t
  have hne : ((NewDocker (NewConfig t)).Run rt).2.1.Error ≠ none := by simp [h]
  rw [if_pos hne] at h₄
  refine ⟨h₁, ?_, ?_, ?_⟩
  · rw [h₄]; simp [Db.set]
  · refine ⟨{ t with StartTime := now, State := .Failed }, ?_, rfl, rfl⟩
    rw [h₄]; simp [Db.set]
  · intro i hi
    rw [h₄]; simp [Db.set, hi]

/-- The instance of C5 for a failed image pull on the snapshot main submits. -/
theorem StartTask_run_failure_witness :
    ((NewDocker (NewConfig taskScheduled)).Run rtPullFails).2.1.Error
      = some (.runtime "pull failed") ∧
    (newWorker.StartTask rtPullFails 7 taskScheduled).worker.Db taskScheduled.ID
      = some { taskScheduled with StartTime := 7, State := .Failed } :=
  ⟨rfl, (StartTask_run_failure rtPullFails 7 newWorker taskScheduled
    (.runtime "pull failed") rfl).2.1⟩

/-- On a runtime that would start the container with the empty id after a failed
ContainerCreate, Docker.Run returns a Result with a nil Error and StartTask writes a
Running record whose ContainerId is empty. -/
theorem StartTask_empty_ContainerId :
    (newWorker.StartTask rtCreateFails 7 taskScheduled).completion
      = .returned { Error := none, Action := "start", ContainerId := "", Result := "success" } ∧
    (newWorker.StartTask rtCreateFails 7 taskScheduled).worker.Db taskScheduled.ID
      = some { taskScheduled with StartTime := 7, State := .Running, ContainerId := "" } := by
  constructor <;> rfl

/-- What StopTask does: Docker.Stop is called with the empty container id of the adapter
just made; when it panics StopTask panics and the Worker is untouched, otherwise the
record written is the snapshot with the finish time and State = Completed. -/
theorem StopTask_spec (rt : Runtime) (now : Time) (w : Worker) (t : Task) :
    (w.StopTask rt now t).calls = Call.StopTask t :: (Docker.Stop rt "").2 ∧
    (∀ e, (Docker.Stop rt "").1 = .error e →
      (w.StopTask rt now t).completion = .panicked e ∧ (w.StopTask rt now t).worker = w) ∧
    (∀ r, (Docker.Stop rt "").1 = .ok r →
      (w.StopTask rt now t).completion = .returned r ∧
      (w.StopTask rt now t).worker.Queue = w.Queue ∧
      (w.StopTask rt now t).worker.Db
        = w.Db.set t.ID { t with FinishTime := now, State := .Completed }) := by
  unfold Worker.StopTask
  simp only [NewDocker]
  rcases hs : Docker.Stop rt "" with ⟨_ | _, calls⟩ <;> simp

/-- C6 (as amended): every Stop dispatch asks the runtime to stop, then remove, the
container id of the adapter it has just made, which is empty. If the stop and the remove
of that id both succeed, StopTask returns the success Result and the store record for the
task's ID has State = Completed and a non-zero FinishTime, the clock's reading being
non-zero. If either fails, as the stop does on every client that refuses an empty id,
StopTask panics with that error and leaves the Worker, the store included, as it was. -/
theorem StopTask_completed_or_panics (rt : Runtime) (now : Time) (w : Worker) (t : Task)
    (hnow : now ≠ 0) :
    (w.StopTask rt now t).calls.take 2 = [Call.StopTask t, Call.ContainerStop ""] ∧
    (rt.ContainerStop "" = none → rt.ContainerRemove "" = none →
      (w.StopTask rt now t).completion
        = .returned { ContainerId := "", Action := "stop", Result := "success" } ∧
      ∃ r, (w.StopTask rt now t).worker.Db t.ID = some r ∧ r.State = .Completed ∧
        r.FinishTime = now ∧ r.FinishTime ≠ 0) ∧
    (∀ e, rt.ContainerStop "" = some e →
      (w.StopTask rt now t).completion = .panicked (.runtime e) ∧
      (w.StopTask rt now t).worker = w) ∧
    (∀ e, rt.ContainerStop "" = none → rt.ContainerRemove "" = some e →
      (w.StopTask rt now t).completion = .panicked (.runtime e) ∧
      (w.StopTask rt now t).worker = w) := by
  obtain ⟨hcalls, hpanic, hret⟩ := StopTask_spec rt now w t
  refine ⟨?_, ?_, ?_, ?_⟩
  · rw [hcalls]
    simp only [Docker.Stop]
    split
    · rfl
    · split <;> rfl
  · intro hstop hremove
    have hs : (Docker.Stop rt "").1
        = .ok { ContainerId := "", Action := "stop", Result := "success" } := by
      simp [Docker.Stop, hstop, hremove]
    obtain ⟨h₁, -, h₃⟩ := hret _ hs
    refine ⟨h₁, { t with FinishTime := now, State := .Completed }, ?_, rfl, rfl, hnow⟩
    rw [h₃]; exact Db.set_self _ _ _
  · intro e hstop
    exact hpanic (.runtime e) (by simp [Docker.Stop, hstop])
  · intro e hstop hremove
    exact hpanic (.runtime e) (by simp [Docker.Stop, hstop, hremove])

/-- The instances of C6 (as amended) for the stop request of task 1 on a store where it is
Running: on a client that refuses the empty id StopTask panics and the Worker is as it
was; on a runtime that stops and removes the empty id the record is Completed. -/
theorem StopTask_completed_or_panics_witness :
    (7 : Time) ≠ 0 ∧
    ((workerWith recordRunning []).StopTask rtDocker 7
        { taskCompleted with ContainerId := "c1" }).completion
      = .panicked (.runtime "empty container id") ∧
    ((workerWith recordRunning []).StopTask rtDocker 7
        { taskCompleted with ContainerId := "c1" }).worker = workerWith recordRunning [] ∧
    ∃ r, ((workerWith recordRunning []).StopTask rtOk 7 taskCompleted).worker.Db
        taskCompleted.ID = some r ∧ r.State = .Completed ∧ r.FinishTime = 7 ∧
        r.FinishTime ≠ 0 :=
  ⟨by decide,
    ((StopTask_completed_or_panics rtDocker 7 (workerWith recordRunning [])
      { taskCompleted with ContainerId := "c1" } (by decide)).2.2.1 "empty container id"
      rfl).1,
    ((StopTask_completed_or_panics rtDocker 7 (workerWith recordRunning [])
      { taskCompleted with ContainerId := "c1" } (by decide)).2.2.1 "empty container id"
      rfl).2,
    ((StopTask_completed_or_panics rtOk 7 (workerWith recordRunning []) taskCompleted
      (by decide)).2.1 rfl rfl).2⟩

/-- C6 (counterexample): the runtime's stop fails; StopTask panics with that error, and
the store record of the task is still the Running one, with a zero FinishTime, not a
Completed one. -/
theorem StopTask_failure_panics :
    ((workerWith recordRunning []).StopTask rtStopFails 7 taskCompleted).completion
      = .panicked (.runtime "stop failed") ∧
    ((workerWith recordRunning []).StopTask rtStopFails 7 taskCompleted).worker.Db
      taskCompleted.ID = some recordRunning ∧
    ¬ ∃ r, ((workerWith recordRunning []).StopTask rtStopFails 7 taskCompleted).worker.Db
      taskCompleted.ID = some r ∧ r.State = .Completed ∧ r.FinishTime ≠ 0 := by
  have h : ((workerWith recordRunning []).StopTask rtStopFails 7 taskCompleted).worker.Db
      taskCompleted.ID = some recordRunning := rfl
  refine ⟨rfl, h, ?_⟩
  rintro ⟨r, hr, hstate, -⟩
  rw [h] at hr
  cases hr
  exact absurd hstate (by decide)

/-! ## RunTask -/

/-- C8: on an empty queue, whatever the store, RunTask returns the Result with a nil
Error and empty Action, ContainerId and Result, makes no call, and leaves the queue empty
and the store as it was. -/
theorem RunTask_empty_queue (valid : State → State → Bool) (rt : Runtime) (now : Time)
    (name : String) (db : Db) (count : Int) :
    (Worker.RunTask valid rt now
        { Name := name, Queue := [], Db := db, TaskCount := count }).completion
      = .returned { Error := none, Action := "", ContainerId := "", Result := "" } ∧
    (Worker.RunTask valid rt now
        { Name := name, Queue := [], Db := db, TaskCount := count }).calls = [] ∧
    (Worker.RunTask valid rt now
        { Name := name, Queue := [], Db := db, TaskCount := count }).worker.Queue = [] ∧
    (Worker.RunTask valid rt now
        { Name := name, Queue := [], Db := db, TaskCount := count }).worker.Db = db :=
  ⟨rfl, rfl, rfl, rfl⟩

/-- C1: when the store holds a record for the dequeued snapshot's ID and the validator
rejects (stored.State, snapshot.State), RunTask returns a Result whose Error is the
"Invalid transition from %v to %v" error made from the stored and the requested state,
makes no call at all (no dispatch, no runtime call), and leaves the whole store as it
was; the snapshot is removed from the queue. -/
theorem RunTask_invalid_transition (valid : State → State → Bool) (rt : Runtime)
    (now : Time) (w : Worker) (t stored : Task) (rest : List Task)
    (hq : w.Queue = t :: rest) (hs : w.Db t.ID = some stored)
    (hv : valid stored.State t.State = false) :
    (w.RunTask valid rt now).completion
      = .returned { Error := some (.errorf "Invalid transition from %v to %v"
          [stored.State, t.State]) } ∧
    (w.RunTask valid rt now).calls = [] ∧
    (w.RunTask valid rt now).worker.Db = w.Db ∧
    (w.RunTask valid rt now).worker.Queue = rest := by
  simp [Worker.RunTask, hq, hs, hv]

/-- The instance of C1 for a Completed request on a task whose record is Pending, with
the validator of the spec. -/
theorem RunTask_invalid_transition_witness :
    (workerWith recordPending [taskCompleted]).Queue = taskCompleted :: [] ∧
    (workerWith recordPending [taskCompleted]).Db taskCompleted.ID = some recordPending ∧
    ValidStateTransition recordPending.State taskCompleted.State = false ∧
    ((workerWith recordPending [taskCompleted]).RunTask ValidStateTransition rtOk 7).completion
      = .returned { Error := some (.errorf "Invalid transition from %v to %v"
          [.Pending, .Completed]) } ∧
    ((workerWith recordPending [taskCompleted]).RunTask ValidStateTransition rtOk 7).worker.Db
      = (workerWith recordPending [taskCompleted]).Db :=
  ⟨rfl, rfl, rfl,
    (RunTask_invalid_transition ValidStateTransition rtOk 7
      (workerWith recordPending [taskCompleted]) taskCompleted recordPending [] rfl rfl rfl).1,
    (RunTask_invalid_transition ValidStateTransition rtOk 7
      (workerWith recordPending [taskCompleted]) taskCompleted recordPending [] rfl rfl rfl).2.2.1⟩

/-- A first sighting of a Scheduled snapshot that the validator accepts against itself is
the Start dispatch on the Worker with the snapshot inserted. -/
theorem RunTask_first_sighting_start (valid : State → State → Bool) (rt : Runtime)
    (now : Time) (w : Worker) (t : Task) (rest : List Task)
    (hq : w.Queue = t :: rest) (habs : w.Db t.ID = none) (hs : t.State = .Scheduled)
    (hv : valid .Scheduled .Scheduled = true) :
    w.RunTask valid rt now
      = Worker.StartTask rt now { w with Queue := rest, Db := w.Db.set t.ID t } t := by
  simp [Worker.RunTask, hq, habs, hs, hv]

/-- The Result of Docker.Run never carries the error of a rejected transition. -/
theorem Run_not_invalid_transition (rt : Runtime) (d : Docker) :
    (Completion.returned (d.Run rt).2.1).isInvalidTransition = false := by
  rcases he : (d.Run rt).2.1.Error with _ | e
  · simp [Completion.isInvalidTransition, he]
  · obtain ⟨c, rfl⟩ := Run_error_runtime rt d e he
    simp [Completion.isInvalidTransition, he]

/-- The only dispatch marker among the calls of StartTask is its own. -/
theorem StartTask_dispatch_calls (rt : Runtime) (now : Time) (w : Worker) (t : Task) :
    (w.StartTask rt now t).calls.filter Call.isDispatch = [Call.StartTask t] := by
  rw [(StartTask_spec rt now w t).2.1, List.filter_cons]
  simp only [Call.isDispatch, if_true, List.cons.injEq, true_and, List.filter_eq_nil_iff]
  intro c hc
  have := Run_calls_runtime rt _ c hc
  simpa [Call.isRuntime] using this

/-- A first sighting of a Scheduled snapshot under the validator of the spec: the Result is
that of Docker.Run, the only dispatch entered is StartTask on the snapshot, once, and a
record is left for the ID. -/
theorem first_sighting_scheduled_spec (rt : Runtime) (now : Time) (w : Worker)
    (t : Task) (rest : List Task) (hq : w.Queue = t :: rest) (habs : w.Db t.ID = none)
    (hs : t.State = .Scheduled) :
    (w.RunTask ValidStateTransition rt now).completion
      = .returned ((NewDocker (NewConfig t)).Run rt).2.1 ∧
    (w.RunTask ValidStateTransition rt now).completion.isInvalidTransition = false ∧
    (w.RunTask ValidStateTransition rt now).calls.filter Call.isDispatch
      = [Call.StartTask t] ∧
    startCount t.ID (w.RunTask ValidStateTransition rt now).calls = 1 ∧
    ∃ r, (w.RunTask ValidStateTransition rt now).worker.Db t.ID = some r ∧ r.ID = t.ID := by
  rw [RunTask_first_sighting_start ValidStateTransition rt now w t rest hq habs hs rfl]
  obtain ⟨h₁, h₂, -, h₄⟩ :=
    StartTask_spec rt now { w with Queue := rest, Db := w.Db.set t.ID t } t
  refine ⟨h₁, ?_, StartTask_dispatch_calls _ _ _ _, ?_, ?_⟩
  · rw [h₁]; exact Run_not_invalid_transition rt _
  · rw [h₂, startCount, List.countP_cons]
    have h0 : List.countP (Call.startsTask t.ID) ((NewDocker (NewConfig t)).Run rt).2.2 = 0 := by
      rw [List.countP_eq_zero]
      intro c hc
      have := Run_calls_runtime rt _ c hc
      cases c <;> simp_all [Call.isRuntime, Call.isDispatch, Call.startsTask]
    simp [h0, Call.startsTask]
  · rw [h₄]
    by_cases he : ((NewDocker (NewConfig t)).Run rt).2.1.Error ≠ none
    · rw [if_pos he]; exact ⟨_, Db.set_self _ _ _, rfl⟩
    · rw [if_neg he]; exact ⟨_, Db.set_self _ _ _, rfl⟩

/-- C3: for every store without a record for the ID of the Scheduled snapshot at the head
of the queue, RunTask under the validator of the spec returns the Result of Docker.Run
on that snapshot, which is not an invalid-transition error, enters the Start dispatch on
that snapshot exactly once and no other dispatch, and leaves a store record for the ID. -/
theorem RunTask_first_sighting_scheduled (rt : Runtime) (now : Time) (w : Worker)
    (t : Task) (rest : List Task) (hq : w.Queue = t :: rest) (habs : w.Db t.ID = none)
    (hs : t.State = .Scheduled) :
    (w.RunTask ValidStateTransition rt now).completion
      = .returned ((NewDocker (NewConfig t)).Run rt).2.1 ∧
    (w.RunTask ValidStateTransition rt now).completion.isInvalidTransition = false ∧
    (w.RunTask ValidStateTransition rt now).calls.filter Call.isDispatch
      = [Call.StartTask t] ∧
    startCount t.ID (w.RunTask ValidStateTransition rt now).calls = 1 ∧
    ∃ r, (w.RunTask ValidStateTransition rt now).worker.Db t.ID = some r ∧ r.ID = t.ID :=
  first_sighting_scheduled_spec rt now w t rest hq habs hs

/-- The instance of C3 for the snapshot main submits, on the Worker main builds. -/
theorem RunTask_first_sighting_scheduled_witness :
    (newWorker.AddTask taskScheduled).Queue = taskScheduled :: [] ∧
    (newWorker.AddTask taskScheduled).Db taskScheduled.ID = none ∧
    taskScheduled.State = .Scheduled ∧
    ((newWorker.AddTask taskScheduled).RunTask ValidStateTransition rtOk 7).calls.filter
      Call.isDispatch = [Call.StartTask taskScheduled] :=
  ⟨rfl, rfl, rfl,
    (RunTask_first_sighting_scheduled rtOk 7 (newWorker.AddTask taskScheduled) taskScheduled
      [] rfl rfl rfl).2.2.1⟩

/-- C2 (counterexample): task 1 has no record and a Completed snapshot of it is at the
head of the queue; under the validator of the spec RunTask validates Completed against
itself and rejects the submission with an invalid-transition error. -/
theorem RunTask_first_sighting_rejected :
    (newWorker.AddTask taskCompleted).Db taskCompleted.ID = none ∧
    ((newWorker.AddTask taskCompleted).RunTask ValidStateTransition rtOk 7).completion
      = .returned { Error := some (.errorf "Invalid transition from %v to %v"
          [.Completed, .Completed]) } ∧
    ((newWorker.AddTask taskCompleted).RunTask ValidStateTransition rtOk
      7).completion.isInvalidTransition = true := by
  refine ⟨rfl, rfl, rfl⟩

/-- C2 (as amended): for every ID absent from the store and every requested state, RunTask
under the validator of the spec leaves a store record for that ID; it validates the
requested state against itself, so the submission is rejected with an invalid-transition
error exactly when the state is Pending, Completed or Failed, the Error then naming that
state twice and no call being made. A Running snapshot is not rejected: RunTask returns
the error "We should not get here" and makes no call. A Scheduled snapshot is not
rejected: RunTask is the Start dispatch on the Worker with the snapshot inserted, entered
once, and its Result is that of Docker.Run. Unless the state is Scheduled (the Start
dispatch then rewrites the record) the record is exactly the snapshot. -/
theorem RunTask_first_sighting (rt : Runtime) (now : Time) (w : Worker) (t : Task)
    (rest : List Task) (hq : w.Queue = t :: rest) (habs : w.Db t.ID = none) :
    (∃ r, (w.RunTask ValidStateTransition rt now).worker.Db t.ID = some r ∧ r.ID = t.ID) ∧
    ((w.RunTask ValidStateTransition rt now).completion.isInvalidTransition = true ↔
      (t.State = .Pending ∨ t.State = .Completed ∨ t.State = .Failed)) ∧
    ((w.RunTask ValidStateTransition rt now).completion.isInvalidTransition = true →
      (w.RunTask ValidStateTransition rt now).completion
        = .returned { Error := some (.errorf "Invalid transition from %v to %v"
            [t.State, t.State]) } ∧
      (w.RunTask ValidStateTransition rt now).calls = []) ∧
    (t.State ≠ .Scheduled →
      (w.RunTask ValidStateTransition rt now).worker.Db = w.Db.set t.ID t) ∧
    (t.State = .Running →
      (w.RunTask ValidStateTransition rt now).completion
        = .returned { Error := some (.errorsNew "We should not get here") } ∧
      (w.RunTask ValidStateTransition rt now).calls = []) ∧
    (t.State = .Scheduled →
      w.RunTask ValidStateTransition rt now
        = Worker.StartTask rt now { w with Queue := rest, Db := w.Db.set t.ID t } t ∧
      (w.RunTask ValidStateTransition rt now).completion
        = .returned ((NewDocker (NewConfig t)).Run rt).2.1 ∧
      (w.RunTask ValidStateTransition rt now).calls.filter Call.isDispatch
        = [Call.StartTask t]) := by
  rcases hst : t.State
  case Scheduled =>
    obtain ⟨h₁, h₂, h₃, -, h₅⟩ := first_sighting_scheduled_spec rt now w t rest hq habs hst
    have h₀ := RunTask_first_sighting_start ValidStateTransition rt now w t rest hq habs hst rfl
    exact ⟨h₅, by simp [h₂], by simp [h₂], by simp, by simp, fun _ => ⟨h₀, h₁, h₃⟩⟩
  all_goals
    simp [Worker.RunTask, hq, habs, hst, ValidStateTransition,
      Completion.isInvalidTransition, Db.set_self]

/-- The instance of C2 (as amended) for a Completed snapshot of a task without record. -/
theorem RunTask_first_sighting_witness :
    (newWorker.AddTask taskCompleted).Queue = taskCompleted :: [] ∧
    (newWorker.AddTask taskCompleted).Db taskCompleted.ID = none ∧
    ∃ r, ((newWorker.AddTask taskCompleted).RunTask ValidStateTransition rtOk 7).worker.Db
      taskCompleted.ID = some r ∧ r.ID = taskCompleted.ID :=
  ⟨rfl, rfl,
    (RunTask_first_sighting rtOk 7 (newWorker.AddTask taskCompleted) taskCompleted [] rfl
      rfl).1⟩

/-- C9 (counterexample): the record of task 1 is Pending with the ContainerId "c1", and a
Scheduled snapshot of task 1 is dispatched to StartTask. When Docker.Run succeeds the
record's ContainerId becomes the Result's, "c2"; when the image pull fails it becomes the
snapshot's, the empty string. In neither case is it "c1" after the call. -/
theorem RunTask_ContainerId_overwritten :
    (workerWith { recordPending with ContainerId := "c1" } [taskScheduled]).Db 1
      = some { recordPending with ContainerId := "c1" } ∧
    ((workerWith { recordPending with ContainerId := "c1" } [taskScheduled]).RunTask
        ValidStateTransition rtDocker 7).worker.Db 1
      = some { taskScheduled with StartTime := 7, State := .Running, ContainerId := "c2" } ∧
    ((workerWith { recordPending with ContainerId := "c1" } [taskScheduled]).RunTask
        ValidStateTransition rtPullFails 7).worker.Db 1
      = some { taskScheduled with StartTime := 7, State := .Failed, ContainerId := "" } ∧
    (¬ ∃ r, ((workerWith { recordPending with ContainerId := "c1" } [taskScheduled]).RunTask
        ValidStateTransition rtDocker 7).worker.Db 1 = some r ∧ r.ContainerId = "c1") ∧
    (¬ ∃ r, ((workerWith { recordPending with ContainerId := "c1" } [taskScheduled]).RunTask
        ValidStateTransition rtPullFails 7).worker.Db 1 = some r ∧ r.ContainerId = "c1") := by
  have h₁ : ((workerWith { recordPending with ContainerId := "c1" } [taskScheduled]).RunTask
        ValidStateTransition rtDocker 7).worker.Db 1
      = some { taskScheduled with StartTime := 7, State := .Running, ContainerId := "c2" } := by
    decide
  have h₂ : ((workerWith { recordPending with ContainerId := "c1" } [taskScheduled]).RunTask
        ValidStateTransition rtPullFails 7).worker.Db 1
      = some { taskScheduled with StartTime := 7, State := .Failed, ContainerId := "" } := rfl
  refine ⟨rfl, h₁, h₂, ?_, ?_⟩
  · rintro ⟨r, hr, hc⟩
    rw [h₁] at hr
    cases hr
    exact absurd hc (by decide)
  · rintro ⟨r, hr, hc⟩
    rw [h₂] at hr
    cases hr
    exact absurd hc (by decide)

/-- RunTask changes no record but the one of the dequeued snapshot's ID; with an empty
queue it changes none. -/
theorem RunTask_frame (valid : State → State → Bool) (rt : Runtime) (now : Time)
    (w : Worker) (i : UUID) (h : ∀ t rest, w.Queue = t :: rest → t.ID ≠ i) :
    (w.RunTask valid rt now).worker.Db i = w.Db i := by
  rcases hq : w.Queue with _ | ⟨t, rest⟩
  · simp [Worker.RunTask, hq]
  · have hi : i ≠ t.ID := fun e => h t rest hq e.symm
    have hset : ∀ (db : Db) (r : Task), (db.set t.ID r) i = db i :=
      fun db r => Db.set_other db t.ID i r hi
    have hstart : ∀ w₂ : Worker, (w₂.StartTask rt now t).worker.Db i = w₂.Db i := by
      intro w₂
      rw [(StartTask_spec rt now w₂ t).2.2.2, hset]
    have hstop : ∀ w₂ : Worker, (w₂.StopTask rt now t).worker.Db i = w₂.Db i := by
      intro w₂
      obtain ⟨-, hp, hr⟩ := StopTask_spec rt now w₂ t
      rcases hs : (Docker.Stop rt "").1 with e | r
      · rw [(hp e hs).2]
      · rw [(hr r hs).2.2, hset]
    simp only [Worker.RunTask, hq]
    rcases hdb : w.Db t.ID with _ | p <;> simp only [] <;> split <;> try split
    all_goals simp [hstart, hstop, hset]

/-- The three ways RunTask goes on a non-empty queue: the Start dispatch, the Stop
dispatch, or a return with an error and without any call. -/
theorem RunTask_cons (valid : State → State → Bool) (rt : Runtime) (now : Time)
    (w : Worker) (t : Task) (rest : List Task) (hq : w.Queue = t :: rest) :
    (valid (w.persisted t).State t.State = true ∧ t.State = .Scheduled ∧
      w.RunTask valid rt now = (w.lookedUp t rest).StartTask rt now t) ∨
    (valid (w.persisted t).State t.State = true ∧ t.State = .Completed ∧
      w.RunTask valid rt now = (w.lookedUp t rest).StopTask rt now t) ∨
    ((w.RunTask valid rt now).worker = w.lookedUp t rest ∧
      (w.RunTask valid rt now).calls = [] ∧
      ∃ e, (w.RunTask valid rt now).completion = .returned { Error := some e }) := by
  simp only [Worker.RunTask, hq, Worker.persisted, Worker.lookedUp]
  rcases hdb : w.Db t.ID with _ | p <;> simp only []
  · by_cases hv : valid t.State t.State = true
    · rcases hst : t.State <;> rw [hst] at hv <;> simp [hv]
    · simp [hv]
  · by_cases hv : valid p.State t.State = true
    · rcases hst : t.State <;> rw [hst] at hv <;> simp [hv]
    · simp [hv]

/-- The store RunTask validates against holds, under every ID that had a record, that
record. -/
theorem lookedUp_Db_of_some (w : Worker) (t : Task) (rest : List Task) (i : UUID) (s : Task)
    (h : w.Db i = some s) : (w.lookedUp t rest).Db i = some s := by
  unfold Worker.lookedUp
  rcases hdb : w.Db t.ID with _ | p
  · have hi : i ≠ t.ID := by
      rintro rfl
      rw [h] at hdb
      cases hdb
    simp [Db.set_other _ _ _ _ hi, h]
  · simpa using h

/-- The record RunTask validates against, for a snapshot whose ID has a record. -/
theorem persisted_of_some (w : Worker) (t s : Task) (h : w.Db t.ID = some s) :
    w.persisted t = s := by
  simp [Worker.persisted, h]

/-- C9 (as amended): on a runtime client that refuses to stop the container with the empty
id, for every store, every queue and every ID with a store record, the record for that ID
has the same ContainerId after RunTask as before, whatever snapshot was dequeued, a
Completed one with an empty or different ContainerId included, unless the call
dispatches a Scheduled snapshot of that ID to StartTask and the ContainerId StartTask
writes, the Result's when Docker.Run succeeds and the snapshot's when it fails, is not
the stored one. -/
theorem RunTask_ContainerId_kept (valid : State → State → Bool) (rt : Runtime) (now : Time)
    (w : Worker) (i : UUID) (stored : Task) (hs : w.Db i = some stored)
    (hrefuse : rt.ContainerStop "" ≠ none)
    (hstart : ∀ t rest, w.Queue = t :: rest → t.ID = i →
      valid stored.State t.State = true → t.State = .Scheduled →
      (if ((NewDocker (NewConfig t)).Run rt).2.1.Error ≠ none then t.ContainerId
        else ((NewDocker (NewConfig t)).Run rt).2.1.ContainerId) = stored.ContainerId) :
    ∃ r, (w.RunTask valid rt now).worker.Db i = some r ∧
      r.ContainerId = stored.ContainerId := by
  rcases hq : w.Queue with _ | ⟨t, rest⟩
  · refine ⟨stored, ?_, rfl⟩
    rw [RunTask_frame valid rt now w i (by simp [hq]), hs]
  · by_cases hid : t.ID = i
    · subst hid
      have hl := lookedUp_Db_of_some w t rest t.ID stored hs
      have hp := persisted_of_some w t stored hs
      rcases RunTask_cons valid rt now w t rest hq with ⟨hv, hst, ho⟩ | ⟨-, -, ho⟩ | ⟨ho, -, -⟩
      · rw [hp] at hv
        have hc := hstart t rest hq rfl hv hst
        rw [ho, (StartTask_spec rt now (w.lookedUp t rest) t).2.2.2]
        by_cases he : ((NewDocker (NewConfig t)).Run rt).2.1.Error ≠ none
        · rw [if_pos he] at hc ⊢
          exact ⟨_, Db.set_self _ _ _, hc⟩
        · rw [if_neg he] at hc ⊢
          exact ⟨_, Db.set_self _ _ _, hc⟩
      · obtain ⟨-, hpanic, -⟩ := StopTask_spec rt now (w.lookedUp t rest) t
        rcases hstop : rt.ContainerStop "" with _ | e
        · exact absurd hstop hrefuse
        · rw [ho, (hpanic (.runtime e) (by simp [Docker.Stop, hstop])).2]
          exact ⟨stored, hl, rfl⟩
      · rw [ho]
        exact ⟨stored, hl, rfl⟩
    · refine ⟨stored, ?_, rfl⟩
      rw [RunTask_frame valid rt now w i ?_, hs]
      intro t₁ rest₁ h₁
      rw [hq] at h₁
      cases h₁
      exact hid

/-- The instance of C9 (as amended) for a stop request that carries no ContainerId, on a
store where task 1 runs in container "c1": the record keeps "c1". -/
theorem RunTask_ContainerId_kept_witness :
    (workerWith recordRunning [taskCompleted]).Db 1 = some recordRunning ∧
    rtDocker.ContainerStop "" ≠ none ∧
    ∃ r, ((workerWith recordRunning [taskCompleted]).RunTask
        ValidStateTransition rtDocker 7).worker.Db 1 = some r ∧
      r.ContainerId = recordRunning.ContainerId :=
  ⟨rfl, by decide, RunTask_ContainerId_kept ValidStateTransition rtDocker 7
    (workerWith recordRunning [taskCompleted]) 1 recordRunning rfl (by decide)
    (by
      intro t rest hq _ _ hst
      have ht : t = taskCompleted := (List.cons.inj hq).1.symm
      subst ht
      exact absurd hst (by decide))⟩

/-! ## Sequences of calls -/

/-- Runtime client calls are not entries of StartTask. -/
theorem startCount_runtime (id : UUID) (calls : List Call)
    (h : ∀ c ∈ calls, c.isRuntime = true) : startCount id calls = 0 := by
  rw [startCount, List.countP_eq_zero]
  intro c hc
  have := h c hc
  cases c <;> simp_all [Call.isRuntime, Call.isDispatch, Call.startsTask]

/-- StartTask is entered once, for the ID of its snapshot. -/
theorem StartTask_startCount (rt : Runtime) (now : Time) (w : Worker) (t : Task)
    (id : UUID) :
    startCount id (w.StartTask rt now t).calls = if t.ID = id then 1 else 0 := by
  rw [(StartTask_spec rt now w t).2.1, startCount, List.countP_cons]
  have h0 := startCount_runtime id _ (Run_calls_runtime rt (NewDocker (NewConfig t)))
  rw [startCount] at h0
  simp [h0, Call.startsTask]

/-- StopTask does not enter StartTask. -/
theorem StopTask_startCount (rt : Runtime) (now : Time) (w : Worker) (t : Task)
    (id : UUID) : startCount id (w.StopTask rt now t).calls = 0 := by
  rw [(StopTask_spec rt now w t).1, startCount, List.countP_cons]
  have h0 := startCount_runtime id _ (Stop_calls_runtime rt "")
  rw [startCount] at h0
  simp [h0, Call.startsTask]

/-- The validator of the spec accepts a move to Scheduled from Pending and Scheduled
only. -/
theorem valid_to_Scheduled (s : State) (h : ValidStateTransition s .Scheduled = true) :
    s = .Pending ∨ s = .Scheduled := by
  cases s <;> simp_all [ValidStateTransition]

/-- The store RunTask validates against differs from the one it was given at most by a
record for an ID that had none. -/
theorem lookedUp_Db (w : Worker) (t : Task) (rest : List Task) (i : UUID) :
    (w.lookedUp t rest).Db i = w.Db i ∨ w.Db i = none := by
  rcases h : w.Db i with _ | s
  · exact Or.inr rfl
  · exact Or.inl (lookedUp_Db_of_some w t rest i s h)

/-- What one RunTask under the validator of the spec does for a task ID: either it does
not enter StartTask for it, and its record is as before, or new, or Completed; or it
enters StartTask for it once, its record before was absent, Pending or Scheduled, and its
record after is Running or Failed. -/
theorem RunTask_start_effect (rt : Runtime) (now : Time) (w : Worker) (id : UUID) :
    (startCount id (w.RunTask ValidStateTransition rt now).calls = 0 ∧
      ((w.RunTask ValidStateTransition rt now).worker.Db id = w.Db id ∨ w.Db id = none ∨
        ∃ r, (w.RunTask ValidStateTransition rt now).worker.Db id = some r ∧
          r.State = .Completed)) ∨
    (startCount id (w.RunTask ValidStateTransition rt now).calls = 1 ∧
      (∀ s, w.Db id = some s → s.State = .Pending ∨ s.State = .Scheduled) ∧
      ∃ r, (w.RunTask ValidStateTransition rt now).worker.Db id = some r ∧
        (r.State = .Running ∨ r.State = .Failed)) := by
  rcases hq : w.Queue with _ | ⟨t, rest⟩
  · left
    exact ⟨by simp [Worker.RunTask, hq, startCount], Or.inl (by simp [Worker.RunTask, hq])⟩
  · have hlook := lookedUp_Db w t rest id
    rcases RunTask_cons ValidStateTransition rt now w t rest hq with
      ⟨hv, hst, ho⟩ | ⟨-, -, ho⟩ | ⟨ho, hc, -⟩
    · rw [ho, StartTask_startCount]
      by_cases hid : t.ID = id
      · right
        subst hid
        refine ⟨by simp, ?_, ?_⟩
        · intro s hs
          rw [persisted_of_some w t s hs, hst] at hv
          exact valid_to_Scheduled _ hv
        · rw [(StartTask_spec rt now (w.lookedUp t rest) t).2.2.2]
          by_cases he : ((NewDocker (NewConfig t)).Run rt).2.1.Error ≠ none
          · rw [if_pos he]; exact ⟨_, Db.set_self _ _ _, Or.inr rfl⟩
          · rw [if_neg he]; exact ⟨_, Db.set_self _ _ _, Or.inl rfl⟩
      · left
        refine ⟨by simp [hid], ?_⟩
        rw [(StartTask_spec rt now (w.lookedUp t rest) t).2.2.2,
          Db.set_other _ _ _ _ (Ne.symm hid)]
        rcases hlook with h | h
        · exact Or.inl h
        · exact Or.inr (Or.inl h)
    · left
      rw [ho]
      refine ⟨StopTask_startCount _ _ _ _ _, ?_⟩
      obtain ⟨-, hpanic, hret⟩ := StopTask_spec rt now (w.lookedUp t rest) t
      rcases hstop : (Docker.Stop rt "").1 with e | r
      · rw [(hpanic e hstop).2]
        rcases hlook with h | h
        · exact Or.inl h
        · exact Or.inr (Or.inl h)
      · rw [(hret r hstop).2.2]
        by_cases hid : t.ID = id
        · subst hid
          exact Or.inr (Or.inr ⟨_, Db.set_self _ _ _, rfl⟩)
        · rw [Db.set_other _ _ _ _ (Ne.symm hid)]
          rcases hlook with h | h
          · exact Or.inl h
          · exact Or.inr (Or.inl h)
    · left
      rw [ho, hc]
      refine ⟨by simp [startCount], ?_⟩
      rcases hlook with h | h
      · exact Or.inl h
      · exact Or.inr (Or.inl h)

/-- Every call on the Worker keeps the invariant. -/
theorem step_StartedOnce (s : Sys) (c : Cmd) (h : StartedOnce s) :
    StartedOnce (step ValidStateTransition s c) := by
  intro id
  cases c with
  | AddTask t => exact h id
  | RunTask rt now =>
    simp only [step, startCount, List.countP_append]
    have he := RunTask_start_effect rt now s.worker id
    simp only [startCount] at he
    have hid := h id
    simp only [startCount] at hid
    rcases he with ⟨h0, hdb⟩ | ⟨h1, hbefore, r, hr, hstate⟩
    · rw [h0, Nat.add_zero]
      rcases hid with hz | ⟨ho, r, hr, hstate⟩
      · exact Or.inl hz
      · right
        refine ⟨ho, ?_⟩
        rcases hdb with hsame | hnone | ⟨r₁, hr₁, hc⟩
        · exact ⟨r, by rw [hsame, hr], hstate⟩
        · rw [hr] at hnone; cases hnone
        · exact ⟨r₁, hr₁, Or.inr (Or.inl hc)⟩
    · rcases hid with hz | ⟨-, r₀, hr₀, hstate₀⟩
      · right
        refine ⟨by rw [hz, h1], r, hr, ?_⟩
        rcases hstate with h | h
        · exact Or.inl h
        · exact Or.inr (Or.inr h)
      · exfalso
        rcases hbefore r₀ hr₀ with h | h <;> rw [h] at hstate₀ <;> simp at hstate₀

/-- Every finite sequence of calls keeps the invariant. -/
theorem exec_StartedOnce (cmds : List Cmd) (s : Sys) (h : StartedOnce s) :
    StartedOnce (exec ValidStateTransition s cmds) := by
  induction cmds generalizing s with
  | nil => exact h
  | cons c cmds ih => exact ih (step ValidStateTransition s c) (step_StartedOnce s c h)

/-- C10: after every finite sequence of AddTask and RunTask calls on a Worker that begins
with an empty store, under the validator of the spec and whatever the runtime does,
StartTask has been entered at most once for any given task ID; and a task it has been
entered for has a store record whose State is Running, Completed or Failed. -/
theorem StartTask_at_most_once (cmds : List Cmd) (name : String) (queue : List Task)
    (count : Int) (id : UUID) :
    startCount id (exec ValidStateTransition
      { worker := { Name := name, Queue := queue, Db := fun _ => none, TaskCount := count },
        calls := [] } cmds).calls ≤ 1 ∧
    (startCount id (exec ValidStateTransition
      { worker := { Name := name, Queue := queue, Db := fun _ => none, TaskCount := count },
        calls := [] } cmds).calls = 1 →
      ∃ r, (exec ValidStateTransition
        { worker := { Name := name, Queue := queue, Db := fun _ => none, TaskCount := count },
          calls := [] } cmds).worker.Db id = some r ∧
        (r.State = .Running ∨ r.State = .Completed ∨ r.State = .Failed)) := by
  have h := exec_StartedOnce cmds
    { worker := { Name := name, Queue := queue, Db := fun _ => none, TaskCount := count },
      calls := [] } (fun _ => Or.inl rfl) id
  rcases h with h | ⟨h, hr⟩
  · exact ⟨by omega, fun h₁ => by omega⟩
  · exact ⟨by omega, fun _ => hr⟩

/-- The scenario of main on a client that refuses the empty container id: the Scheduled
snapshot is started once, in container "c2"; the stop request, though it carries "c2",
panics in Docker.Stop, which is given the empty id of the fresh adapter, and the record
stays Running. -/
theorem main_scenario :
    startCount 1 (exec ValidStateTransition { worker := newWorker, calls := [] }
      [.AddTask taskScheduled, .RunTask rtDocker 5,
       .AddTask { taskCompleted with ContainerId := "c2" }, .RunTask rtDocker 9]).calls = 1 ∧
    ((newWorker.AddTask taskScheduled).RunTask ValidStateTransition rtDocker 5).completion
      = .returned { ContainerId := "c2", Action := "start", Result := "success" } ∧
    (Worker.RunTask ValidStateTransition rtDocker 9
      (exec ValidStateTransition { worker := newWorker, calls := [] }
        [.AddTask taskScheduled, .RunTask rtDocker 5,
         .AddTask { taskCompleted with ContainerId := "c2" }]).worker).completion
      = .panicked (.runtime "empty container id") ∧
    (exec ValidStateTransition { worker := newWorker, calls := [] }
      [.AddTask taskScheduled, .RunTask rtDocker 5,
       .AddTask { taskCompleted with ContainerId := "c2" }, .RunTask rtDocker 9]).worker.Db 1
      = some { taskScheduled with StartTime := 5, State := .Running, ContainerId := "c2" } := by
  refine ⟨?_, ?_, ?_, ?_⟩ <;> decide

end Orchestrator
